import Mathlib

/-!
Shallow embedding of the `Datasource` hierarchy of
`datasource/datasource.py` (krumnack/qtpyvis): the fetch-dispatch chain of
the capability mixins (`Random`, `Indexed`, `Snapshot`), the `prepare` /
`fetch` lifecycle guards of the base class, the `Indexed` navigation
arithmetic, and the `Labeled` label-format translation machinery.

Python state is passed explicitly; Python exceptions are modelled with
`Except String`; Python `None` becomes `Option`.
-/

namespace QtPyVis

/-! ## Fetch dispatch chain (Random / Indexed / Snapshot mixins)

A concrete datasource composed of the `Indexed` (which extends `Random`)
and `Snapshot` capabilities has method resolution order
`Indexed -> Random -> Snapshot -> Datasource`.  Each mixin's `_fetch`
override inspects the selector it owns and either handles the call with
its own primitive or delegates to the next class in the order, ending at
`Datasource._fetch`, which invokes the subclass's `_fetch_default`
strategy.  Each `_fetch` level is embedded as a function from its selector
(and the strategy chosen by the rest of the chain) to the strategy that
runs, so a call resolves to exactly one strategy by construction. -/

/-- Which concrete fetch strategy a `fetch` call resolves to. -/
inductive Strategy where
  | indexed (i : Nat)
  | random
  | snapshot
  | defaultFetch
deriving DecidableEq

/-- Embeds `Datasource._fetch`, which calls `self._fetch_default`: the
subclass's default fetch strategy runs. -/
def Datasource_fetch_chain : Strategy :=
  Strategy.defaultFetch

/-- Embeds `Snapshot._fetch(snapshot=False, **kwargs)`: if `snapshot` is
set, `_fetch_snapshot` runs, otherwise the call is delegated to the next
class in the method resolution order (`next`). -/
def Snapshot_fetch_chain (snapshot : Bool) (next : Strategy) : Strategy :=
  if snapshot then Strategy.snapshot else next

/-- Embeds `Random._fetch(random=False, **kwargs)`: if `random` is set,
`_fetch_random` runs, otherwise the call is delegated. -/
def Random_fetch_chain (random : Bool) (next : Strategy) : Strategy :=
  if random then Strategy.random else next

/-- Embeds `Indexed._fetch(index=None, **kwargs)`: the selector is tested
with `index is not None`, so index `0` is handled by `_fetch_index` like
any other index; only an absent (`None`) index is delegated. -/
def Indexed_fetch_chain (index : Option Nat) (next : Strategy) : Strategy :=
  match index with
  | some i => Strategy.indexed i
  | none => next

/-- The whole `_fetch` chain of a datasource composed of the `Indexed`
(hence `Random`) and `Snapshot` capabilities, in method resolution order. -/
def composedFetch (index : Option Nat) (random snapshot : Bool) : Strategy :=
  Indexed_fetch_chain index
    (Random_fetch_chain random
      (Snapshot_fetch_chain snapshot Datasource_fetch_chain))

/-- Embeds `Datasource.fetch(**kwargs)` at the dispatch level: the body
runs only when the instance is prepared, in which case the `_fetch` chain
resolves the selectors to exactly one strategy. -/
def fetchDispatch (prepared : Bool) (index : Option Nat)
    (random snapshot : Bool) : Option Strategy :=
  if prepared then some (composedFetch index random snapshot) else none

/-! ## Datasource.fetch lifecycle guard

`Datasource.fetch` is guarded by `if self.prepared:`; the body (metadata
attachment, the `_fetch` chain, the `data_changed` notification) is
skipped entirely when the instance is not prepared, and no exception is
raised on that path. -/

/-- Observable state of a base `Datasource` around one `fetch` call. -/
structure DatasourceState where
  prepared : Bool
  metadataSet : Bool
  fetchCount : Nat
  dataChangedCount : Nat
deriving DecidableEq

/-- Embeds `Datasource.fetch`: when prepared, attach fresh metadata, run
the `_fetch` chain (counted by `fetchCount`) and fire `data_changed`;
when not prepared, fall through and return normally without any effect. -/
def Datasource_fetch (s : DatasourceState) : Except String DatasourceState :=
  if s.prepared then
    Except.ok { s with
      metadataSet := true
      fetchCount := s.fetchCount + 1
      dataChangedCount := s.dataChangedCount + 1 }
  else
    Except.ok s

/-! ## Indexed navigation arithmetic

`Indexed._fetch_default`, `fetch_next` and `fetch_prev` all compute the
index to fetch from the current index (`self._get_index() or 0`, resp.
`self._index or 0`, which maps `None` to `0`) and the length
`len(self)`. -/

/-- Embeds the index computed by `Indexed._fetch_default`:
`(current_index + 1) if current_index < len(self) else 0`. -/
def Indexed_fetch_default_target (current : Option Nat) (n : Nat) : Nat :=
  let c := current.getD 0
  if c < n then c + 1 else 0

/-- Embeds the index computed by `Indexed.fetch_next`, the same
expression as in `_fetch_default`. -/
def Indexed_fetch_next_target (current : Option Nat) (n : Nat) : Nat :=
  let c := current.getD 0
  if c < n then c + 1 else 0

/-- Embeds the index computed by `Indexed.fetch_prev`:
`(current_index - 1) if current_index > 0 else len(self)`. -/
def Indexed_fetch_prev_target (current : Option Nat) (n : Nat) : Nat :=
  let c := current.getD 0
  if 0 < c then c - 1 else n

/-- Embeds the index fetched by `Indexed.fetch_first`: `0`. -/
def Indexed_fetch_first_target : Nat :=
  0

/-- Embeds the index fetched by `Indexed.fetch_last`: `len(self) - 1`. -/
def Indexed_fetch_last_target (n : Nat) : Nat :=
  n - 1

/-! ## Indexed.fetch_index and subscripting

The body of `Indexed.fetch_index(self, index, **kwargs)` is
`self.fetch(index=next_index, **kwargs)`.  The name `next_index` is not
a parameter, not assigned in this method and not a module-level name, so
evaluating it raises `NameError` before `fetch` is entered.
`Indexed.__getitem__(self, index)` calls `self.fetch_index(index=index)`
and then `self.get_data()` (itself an undefined attribute), so the
`NameError` from `fetch_index` propagates out of the subscript. -/

/-- Embeds `Indexed.fetch_index`: its body reads the unbound local name
`next_index`, so the call always raises `NameError`. -/
def Indexed_fetch_index (_index : Nat) : Except String Nat :=
  Except.error "NameError: name next_index is not defined"

/-- Embeds `Indexed.__getitem__`: `self.fetch_index(index=index)` followed
by `return self.get_data()`; the first step already raises. -/
def Indexed_getitem (index : Nat) : Except String Nat := do
  let _ ← Indexed_fetch_index index
  Except.error "AttributeError: get_data"

/-! ## Datasource.prepare

`Datasource.prepare` runs `self._prepare_data()` followed by
`self.fetch()` only when the instance is not yet prepared.  The backend
primitive `_prepare_data` is subclass-specific, so it is a parameter of
the embedding; the backend contract says a successful `_prepare_data`
allocates the resources, after which the subclass's `prepared` property
reports `True`. -/

/-- Observable state of a `Datasource` around `prepare` calls. -/
structure PrepState where
  prepared : Bool
  prepareDataCount : Nat
  fetchCount : Nat
deriving DecidableEq

/-- Embeds the `self.fetch()` call inside `prepare`: `Datasource.fetch`
runs its body (counted by `fetchCount`) only when the instance is
prepared. -/
def Datasource_fetch_step (s : PrepState) : PrepState :=
  if s.prepared then { s with fetchCount := s.fetchCount + 1 } else s

/-- Embeds `Datasource.prepare` over a backend primitive `prepareData`
standing for `_prepare_data`: `if not self.prepared: self._prepare_data();
self.fetch(); self.change(..)`. -/
def Datasource_prepare (prepareData : PrepState → PrepState)
    (s : PrepState) : PrepState :=
  if s.prepared then s else Datasource_fetch_step (prepareData s)

/-! ## Labeled: label formats, reverse tables, one-hot encoding

`Labeled` holds `_label_formats` (format name to forward lookup table)
and `_label_reverse` (format name to cached reverse lookup table).  This
embedding covers the list-backed tables (the branch the claims exercise;
`np.ndarray`-backed tables take an `argsort` branch instead).  Python
dicts are modelled as association lists with overwrite-on-insert and
first-match lookup, so a key occurs at most once by construction. -/

/-- Lookup in a dict modelled as an association list. -/
def dget {α : Type} : List (String × α) → String → Option α
  | [], _ => none
  | (k, v) :: rest, s => if k = s then some v else dget rest s

/-- Insertion with overwrite, the semantics of a Python dict assignment. -/
def dinsert {α : Type} : List (String × α) → String → α → List (String × α)
  | [], k, v => [(k, v)]
  | (k', v') :: rest, k, v =>
      if k' = k then (k, v) :: rest else (k', v') :: dinsert rest k v

/-- Builds the dict comprehension of `Labeled.format_labels`
step 1b, `\x7b v: i for i, v in enumerate(table) \x7d`, by inserting the
pairs left to right starting at index `i0`; a value occurring several
times keeps its last index, as in Python. -/
def dictOfEnumFrom (i0 : Nat) : List String → List (String × Nat) →
    List (String × Nat)
  | [], d => d
  | v :: rest, d => dictOfEnumFrom (i0 + 1) rest (dinsert d v i0)

/-- The reverse lookup table derived from a list-backed forward table. -/
def dictOfEnum (table : List String) : List (String × Nat) :=
  dictOfEnumFrom 0 table []

/-- A single label value flowing through `format_labels`: Python `int` or
`str`. -/
inductive Label where
  | num (n : Nat)
  | text (s : String)
deriving DecidableEq

/-- State of a `Labeled` datasource.  The field `formats` embeds the
attribute `_formats`, which appears in the source only as the assignment
target in `unprepare_labels` (no other method reads or writes it). -/
structure Labeled where
  number_of_labels : Option Nat
  label_formats : List (String × List String)
  label_reverse : List (String × List (String × Nat))
  formats : List (String × List String)
deriving DecidableEq

/-- Embeds `Labeled.labels_prepared`: `number_of_labels is not None`. -/
def Labeled_labels_prepared (st : Labeled) : Bool :=
  st.number_of_labels.isSome

/-- Embeds `Labeled.unprepare_labels`: when labels are prepared it
executes `self._formats = \x7b\x7d`, assigning a fresh attribute;
neither `_label_formats` nor `_label_reverse` is touched. -/
def Labeled_unprepare_labels (st : Labeled) : Labeled :=
  if Labeled_labels_prepared st then { st with formats := [] } else st

/-- Embeds `Labeled.add_label_format`: raises `ValueError` when
`self.number_of_labels != len(formated_labels)` (in particular when
`number_of_labels` is `None`), otherwise stores the forward table. -/
def Labeled_add_label_format (st : Labeled) (format : String)
    (formated_labels : List String) : Except String Labeled :=
  if st.number_of_labels = some formated_labels.length then
    Except.ok { st with
      label_formats := dinsert st.label_formats format formated_labels }
  else
    Except.error "ValueError: Provided wrong number of formated labels"

/-- Embeds `Labeled.format_labels(labels, format=None, origin=None)` for
a single label and list-backed tables.  Step 1 (when `origin` is given):
check the origin format is registered, take the cached reverse table or
build and cache it, and translate through it (a plain dict lookup for a
single label; an `int` key misses a dict keyed by the table's strings).
Step 2 (when `format` is given): translate through the forward table
(`table[labels]`, which for a Python list needs an `int` index in
range). -/
def Labeled_format_labels (st : Labeled) (labels : Label)
    (format origin : Option String) : Except String (Label × Labeled) :=
  let step1 : Except String (Label × Labeled) :=
    match origin with
    | none => Except.ok (labels, st)
    | some o =>
      match dget st.label_formats o with
      | none => Except.error ("ValueError: Format " ++ o ++ " is not supported")
      | some table =>
        let built :=
          match dget st.label_reverse o with
          | none =>
            let r := dictOfEnum table
            (r, { st with label_reverse := dinsert st.label_reverse o r })
          | some r => (r, st)
        match labels with
        | Label.num _ => Except.error "KeyError"
        | Label.text s =>
          match dget built.1 s with
          | none => Except.error "KeyError"
          | some i => Except.ok (Label.num i, built.2)
  match step1 with
  | Except.error e => Except.error e
  | Except.ok (labels1, st1) =>
    match format with
    | none => Except.ok (labels1, st1)
    | some f =>
      match dget st1.label_formats f with
      | none => Except.error ("ValueError: Format " ++ f ++ " is not supported")
      | some table =>
        match labels1 with
        | Label.num n =>
          match table.get? n with
          | none => Except.error "IndexError"
          | some v => Except.ok (Label.text v, st1)
        | Label.text _ => Except.error "TypeError"

/-- The round trip of the spec: translate a numeric label to the text
format, then translate the result back with `format=None, origin=text`,
threading the state (and its reverse-table cache) through both calls. -/
def Labeled_roundtrip (st : Labeled) (l : Nat) : Except String Label := do
  let (v, st1) ← Labeled_format_labels st (Label.num l) (some "text") none
  let (w, _) ← Labeled_format_labels st1 v none (some "text")
  pure w

/-- A `Labeled` state with `number_of_labels = some n` and no formats
registered yet. -/
def Labeled_empty (n : Nat) : Labeled :=
  { number_of_labels := some n
    label_formats := []
    label_reverse := []
    formats := [] }

/-- Embeds the single-integer-label branch of
`Labeled.one_hot_for_labels` (with `format=None`): first
`np.zeros(self.number_of_labels)` raises `TypeError` when
`number_of_labels` is `None`; otherwise the assignment
`output[label] = 1` reads the unbound name `label` (the parameter is
`labels`) and raises `NameError`. -/
def Labeled_one_hot_for_labels (st : Labeled) (_l : Nat) :
    Except String (List Nat) :=
  match st.number_of_labels with
  | none => Except.error "TypeError: np.zeros(None)"
  | some n =>
    let _output := List.replicate n 0
    Except.error "NameError: name label is not defined"

/-! ## Helper lemmas about the dict model -/

/-- Looking a key up after an overwriting insertion sees the new value
for that key and is otherwise unchanged. -/
theorem dget_dinsert {α : Type} (d : List (String × α)) (k : String) (v : α)
    (s : String) :
    dget (dinsert d k v) s = if k = s then some v else dget d s := by
  induction d with
  | nil => rfl
  | cons p rest ih =>
    obtain ⟨k', v'⟩ := p
    by_cases hk : k' = k
    · subst hk
      by_cases hs : k' = s
      · simp [dinsert, dget, hs]
      · simp [dinsert, dget, hs]
    · by_cases hs : k' = s
      · have hks : ¬ k = s := fun h => hk (hs ▸ h ▸ rfl)
        have hsk : ¬ s = k := fun h => hks h.symm
        simp [dinsert, hk, dget, hs, hks, hsk]
      · simp [dinsert, hk, dget, hs, ih]

/-- Values absent from the enumerated table are not touched by the dict
comprehension. -/
theorem dget_dictOfEnumFrom_of_not_mem (table : List String) (s : String)
    (h : s ∉ table) : ∀ (i : Nat) (d : List (String × Nat)),
    dget (dictOfEnumFrom i table d) s = dget d s := by
  induction table with
  | nil => intro i d; rfl
  | cons v rest ih =>
    intro i d
    have hv : ¬ v = s := fun hvs => h (hvs ▸ List.mem_cons_self v rest)
    have hs : s ∉ rest := fun hm => h (List.mem_cons_of_mem v hm)
    simp [dictOfEnumFrom, ih hs, dget_dinsert, hv]

/-- On a duplicate-free table, the dict comprehension started at offset
`i` maps the entry at position `l` back to `i + l`. -/
theorem dget_dictOfEnumFrom_get :
    ∀ (table : List String), table.Nodup →
    ∀ (l : Nat) (h : l < table.length) (i : Nat) (d : List (String × Nat)),
    dget (dictOfEnumFrom i table d) (table.get ⟨l, h⟩) = some (i + l) := by
  intro table
  induction table with
  | nil =>
    intro _ l h
    exact absurd h (by simp)
  | cons v rest ih =>
    intro hnd l h i d
    match l with
    | 0 =>
      have hv : v ∉ rest := (List.nodup_cons.mp hnd).1
      show dget (dictOfEnumFrom (i + 1) rest (dinsert d v i)) v = some (i + 0)
      rw [dget_dictOfEnumFrom_of_not_mem rest v hv, dget_dinsert]
      simp
    | Nat.succ l' =>
      have h' : l' < rest.length := Nat.lt_of_succ_lt_succ h
      show dget (dictOfEnumFrom (i + 1) rest (dinsert d v i))
        (rest.get ⟨l', h'⟩) = some (i + (l' + 1))
      rw [ih (List.nodup_cons.mp hnd).2 l' h' (i + 1) (dinsert d v i)]
      congr 1
      omega

/-- On a duplicate-free table, the derived reverse table maps the entry
at position `l` back to `l`. -/
theorem dget_dictOfEnum_get (table : List String) (hnd : table.Nodup)
    (l : Nat) (h : l < table.length) :
    dget (dictOfEnum table) (table.get ⟨l, h⟩) = some l := by
  have hmain := dget_dictOfEnumFrom_get table hnd l h 0 []
  simpa [dictOfEnum] using hmain

/-! ## Claim theorems -/

/-- Claim C1: on a prepared datasource composed of the Random, Indexed
and Snapshot capabilities, every fetch call resolves to exactly one
concrete strategy: a non-None index selects only the `_fetch_index`
primitive (whatever the other selectors), `random=True` only
`_fetch_random`, `snapshot=True` only `_fetch_snapshot`, and a call
without selectors only the subclass default strategy.  Exclusivity is by
construction: the embedded chain is a function into a single
`Strategy`. -/
theorem fetch_dispatch_exclusive (i : Nat) (r s : Bool) :
    fetchDispatch true (some i) r s = some (Strategy.indexed i) ∧
    fetchDispatch true none true false = some Strategy.random ∧
    fetchDispatch true none false true = some Strategy.snapshot ∧
    fetchDispatch true none false false = some Strategy.defaultFetch :=
  ⟨rfl, rfl, rfl, rfl⟩

/-- Witness for C1 at the concrete index 3 with the other selectors
unset. -/
theorem fetch_dispatch_exclusive_witness :
    fetchDispatch true (some 3) false false = some (Strategy.indexed 3) ∧
    fetchDispatch true none true false = some Strategy.random ∧
    fetchDispatch true none false true = some Strategy.snapshot ∧
    fetchDispatch true none false false = some Strategy.defaultFetch :=
  fetch_dispatch_exclusive 3 false false

/-- Claim C10: `fetch(index=0)` dispatches to the indexed strategy and
fetches element 0: the chain tests the selector with `is not None`, so
the falsy index 0 does not fall through to the default strategy. -/
theorem fetch_index_zero_dispatch :
    fetchDispatch true (some 0) false false = some (Strategy.indexed 0) ∧
    Strategy.indexed 0 ≠ Strategy.defaultFetch := by
  exact ⟨rfl, by decide⟩

/-- Claim C2, counterexample: on a concrete unprepared state, `fetch`
returns normally (`Except.ok`) with the state unchanged — no error is
raised and nothing is fetched, contradicting the claim that a
not-prepared error reaches the caller. -/
theorem fetch_unprepared_counterexample :
    Datasource_fetch ⟨false, false, 0, 0⟩ =
      Except.ok (⟨false, false, 0, 0⟩ : DatasourceState) := rfl

/-- Claim C2, amended: calling `fetch` on a datasource that is not
prepared is a silent no-op: the call returns normally with the state
unchanged (no `_fetch` strategy runs, no metadata is attached, no
`data_changed` fires) rather than raising a not-prepared error. -/
theorem fetch_unprepared_noop (s : DatasourceState)
    (h : s.prepared = false) :
    Datasource_fetch s = Except.ok s := by
  simp [Datasource_fetch, h]

/-- Witness for the amended C2 at a concrete unprepared state. -/
theorem fetch_unprepared_noop_witness :
    (⟨false, false, 0, 0⟩ : DatasourceState).prepared = false ∧
    Datasource_fetch ⟨false, false, 0, 0⟩ =
      Except.ok (⟨false, false, 0, 0⟩ : DatasourceState) :=
  ⟨rfl, fetch_unprepared_noop ⟨false, false, 0, 0⟩ rfl⟩

/-- Claim C3: evaluating the Indexed navigation arithmetic at length
N = 2 exhibits the wraparound bug: the default fetch and `fetch_next` at
the last valid index 1 = N-1 target index 2 = N (outside `[0, N)`)
instead of wrapping to 0, and `fetch_prev` at index 0 targets 2 = N
instead of N-1 = 1; `fetch_first` and `fetch_last` are correct. -/
theorem indexed_wraparound_bug :
    Indexed_fetch_default_target (some 1) 2 = 2 ∧
    Indexed_fetch_next_target (some 1) 2 = 2 ∧
    ¬ Indexed_fetch_next_target (some 1) 2 < 2 ∧
    Indexed_fetch_next_target (some 1) 2 ≠ 0 ∧
    Indexed_fetch_prev_target (some 0) 2 = 2 ∧
    Indexed_fetch_prev_target (some 0) 2 ≠ 1 ∧
    Indexed_fetch_first_target = 0 ∧
    Indexed_fetch_last_target 2 = 1 := by decide

/-- Claim C4: the subscript `source[0]` raises `NameError` instead of
fetching index 0, because the body of `fetch_index` reads the unbound
name `next_index`. -/
theorem getitem_name_error :
    Indexed_getitem 0 =
      Except.error "NameError: name next_index is not defined" := rfl

/-- Claim C5: with the text format registered via `add_label_format`
over a duplicate-free table whose length is `number_of_labels`,
translating any in-range numeric label to the text format and back
(`format=None, origin=text`) returns the original label. -/
theorem labeled_roundtrip_identity (table : List String)
    (hnd : table.Nodup) (l : Nat) (hl : l < table.length) :
    (Labeled_add_label_format (Labeled_empty table.length) "text"
        table).bind (fun st => Labeled_roundtrip st l) =
      Except.ok (Label.num l) := by
  have key : dget (dictOfEnum table) table[l] = some l := by
    simpa [List.get_eq_getElem] using dget_dictOfEnum_get table hnd l hl
  simp [Labeled_add_label_format, Labeled_empty, dinsert,
        Labeled_roundtrip, Labeled_format_labels, dget,
        Bind.bind, Except.bind, Functor.map, Except.map,
        Pure.pure, Except.pure,
        List.getElem?_eq_getElem hl, key]

/-- Witness for C5 on the concrete table `[a, b, c]` and label 1. -/
theorem labeled_roundtrip_identity_witness :
    (["a", "b", "c"] : List String).Nodup ∧
    1 < (["a", "b", "c"] : List String).length ∧
    (Labeled_add_label_format
        (Labeled_empty (["a", "b", "c"] : List String).length) "text"
        ["a", "b", "c"]).bind (fun st => Labeled_roundtrip st 1) =
      Except.ok (Label.num 1) :=
  ⟨by decide, by decide,
    labeled_roundtrip_identity ["a", "b", "c"] (by decide) 1 (by decide)⟩

/-- Claim C6: with a backend `_prepare_data` primitive that allocates
the resources (so the instance reports prepared afterwards) and performs
no fetch of its own, two consecutive `prepare()` calls leave the
instance prepared after each, the second call is a no-op, the backend
primitive runs exactly once, and exactly one implicit initial fetch is
performed. -/
theorem prepare_idempotent (pd : PrepState → PrepState)
    (hprep : ∀ s, (pd s).prepared = true)
    (hcount : ∀ s, (pd s).prepareDataCount = s.prepareDataCount + 1)
    (hfetch : ∀ s, (pd s).fetchCount = s.fetchCount)
    (s : PrepState) (h0 : s.prepared = false)
    (hc : s.prepareDataCount = 0) (hf : s.fetchCount = 0) :
    (Datasource_prepare pd s).prepared = true ∧
    Datasource_prepare pd (Datasource_prepare pd s) =
      Datasource_prepare pd s ∧
    (Datasource_prepare pd s).prepareDataCount = 1 ∧
    (Datasource_prepare pd s).fetchCount = 1 := by
  simp [Datasource_prepare, Datasource_fetch_step, h0, hprep, hcount,
        hfetch, hc, hf]

/-- Witness for C6 with a concrete conforming backend primitive and the
freshly constructed state. -/
theorem prepare_idempotent_witness :
    (Datasource_prepare
        (fun s => ⟨true, s.prepareDataCount + 1, s.fetchCount⟩)
        ⟨false, 0, 0⟩).prepared = true ∧
    Datasource_prepare
        (fun s => ⟨true, s.prepareDataCount + 1, s.fetchCount⟩)
        (Datasource_prepare
          (fun s => ⟨true, s.prepareDataCount + 1, s.fetchCount⟩)
          ⟨false, 0, 0⟩) =
      Datasource_prepare
        (fun s => ⟨true, s.prepareDataCount + 1, s.fetchCount⟩)
        ⟨false, 0, 0⟩ ∧
    (Datasource_prepare
        (fun s => ⟨true, s.prepareDataCount + 1, s.fetchCount⟩)
        ⟨false, 0, 0⟩).prepareDataCount = 1 ∧
    (Datasource_prepare
        (fun s => ⟨true, s.prepareDataCount + 1, s.fetchCount⟩)
        ⟨false, 0, 0⟩).fetchCount = 1 :=
  prepare_idempotent (fun s => ⟨true, s.prepareDataCount + 1, s.fetchCount⟩)
    (fun _ => rfl) (fun _ => rfl) (fun _ => rfl) ⟨false, 0, 0⟩ rfl rfl rfl

/-- A concrete `Labeled` state with a registered text format. -/
def c8_start : Labeled :=
  { number_of_labels := some 2
    label_formats := [("text", ["a", "b"])]
    label_reverse := []
    formats := [] }

/-- The state after a `format_labels` call with `origin=text`, which
lazily builds and caches the reverse lookup table for the text
format. -/
def c8_cached : Labeled :=
  match Labeled_format_labels c8_start (Label.text "b") none
      (some "text") with
  | Except.ok (_, st) => st
  | Except.error _ => c8_start

/-- Claim C8: with the reverse table for the text format cached by a
prior `format_labels` call, `unprepare_labels()` leaves the cache
unchanged — it still contains the previously built table, because the
method assigns to the unrelated fresh attribute `_formats` instead of
clearing `_label_reverse`. -/
theorem unprepare_labels_keeps_reverse_cache :
    dget c8_cached.label_reverse "text" = some [("a", 0), ("b", 1)] ∧
    (Labeled_unprepare_labels c8_cached).label_reverse =
      c8_cached.label_reverse ∧
    dget (Labeled_unprepare_labels c8_cached).label_reverse "text" =
      some [("a", 0), ("b", 1)] := by decide

/-- Claim C9: for a single integer label, `one_hot_for_labels` raises
`NameError` (its assignment reads the unbound name `label`; the
parameter is `labels`) instead of returning a one-hot vector; when
`number_of_labels` is unknown it fails earlier in `np.zeros(None)`. -/
theorem one_hot_name_error :
    Labeled_one_hot_for_labels (Labeled_empty 2) 0 =
      Except.error "NameError: name label is not defined" ∧
    Labeled_one_hot_for_labels
        { number_of_labels := none, label_formats := [],
          label_reverse := [], formats := [] } 0 =
      Except.error "TypeError: np.zeros(None)" :=
  ⟨rfl, rfl⟩

end QtPyVis
